import Mathlib

/-!
# Verification of `light_manager.py`

A shallow embedding of the decision/control engine of `light_manager.py`:
time parsing and schedule-window tests, the sensor-read retry loop, the
per-fixture desired-state computation (`should_be_on`), and one iteration of
the main control loop (edge-detection logging, LED reconciliation, state
update and persistence).

Conventions of the embedding:
* Python `datetime.time` values become the `Time` structure (hour, minute,
  second); `datetime.time` objects are always in range, so comparison of
  `Time.toSeconds` coincides with Python's field-wise comparison.
* A Python exception escaping a function is modelled by `Option`: `none`
  means the call raised.  The main loop catches only `KeyboardInterrupt`,
  so a `none` from `run_cycle` models the process crashing.
* Lux readings, `threshold` and `hysteresis` are modelled by `ℤ`
  (JSON numbers / sensor values; every claim involves integer values only,
  and Python's numeric comparisons agree with `ℤ` on integers).
* Hardware commands (`led.on()` / `led.off()`) and their accompanying log
  lines are modelled by the `Command` entries emitted by `reconcile`;
  the edge-detection log lines (init / transition) by `LogEvent`.
-/

namespace LightManager

/-- Time of day, mirroring Python `datetime.time` (hour, minute, second). -/
structure Time where
  hour : Nat
  minute : Nat
  second : Nat
deriving DecidableEq, Repr

/-- Seconds since midnight; Python compares `datetime.time` values
field-wise, which agrees with this on in-range times. -/
def Time.toSeconds (t : Time) : Nat :=
  t.hour * 3600 + t.minute * 60 + t.second

/-- `tstr.split(":")` at the character level: the list of `":"`-separated
fields of the string. -/
def split_on_colon : List Char → List (List Char)
  | [] => [[]]
  | c :: cs =>
    match split_on_colon cs with
    | [] => [[]]
    | p :: ps => if c = ':' then [] :: p :: ps else (c :: p) :: ps

/-- Decimal digits accumulated left to right; a non-digit character makes
the conversion fail. -/
def digits_to_nat (acc : Nat) : List Char → Option Nat
  | [] => some acc
  | c :: cs =>
    if c.isDigit then digits_to_nat (acc * 10 + (c.toNat - 48)) cs
    else none

/-- Python `int(s)` on a field: an optional sign followed by a non-empty
digit string (whitespace/underscore forms are treated as malformed — an
accepted narrowing, none of them occurs in a `HH:MM` schedule value). -/
def parse_int (l : List Char) : Option Int :=
  match l with
  | [] => none
  | '-' :: rest =>
    match rest with
    | [] => none
    | _ => (digits_to_nat 0 rest).map (fun n => -(n : Int))
  | _ => (digits_to_nat 0 l).map (fun n => (n : Int))

/-- `parse_time` (light_manager.py:84-87): split on `":"`, convert both
parts with `int`, build `datetime.time(h, m)`.  A wrong number of fields,
a non-integer field, or an out-of-range value raises (`none`). -/
def parse_time (tstr : String) : Option Time :=
  match split_on_colon tstr.data with
  | [hs, ms] =>
    match parse_int hs, parse_int ms with
    | some h, some m =>
      if 0 ≤ h ∧ h < 24 ∧ 0 ≤ m ∧ m < 60 then
        some ⟨h.toNat, m.toNat, 0⟩
      else none
    | _, _ => none
  | _ => none

/-- `time_to_minutes` (light_manager.py:90-92): `t.hour * 60 + t.minute`
(seconds are dropped). -/
def time_to_minutes (t : Time) : Nat :=
  t.hour * 60 + t.minute

/-- `is_between` (light_manager.py:95-110): parse both bounds, convert all
three times to minutes since midnight, then test the half-open window,
with the midnight-crossing case when `start_min > end_min`. -/
def is_between (now : Time) (start_str end_str : String) : Option Bool :=
  match parse_time start_str, parse_time end_str with
  | some start, some stop =>
    let now_min := time_to_minutes now
    let start_min := time_to_minutes start
    let end_min := time_to_minutes stop
    if start_min ≤ end_min then
      some (decide (start_min ≤ now_min ∧ now_min < end_min))
    else
      some (decide (now_min ≥ start_min ∨ now_min < end_min))
  | _, _ => none

/-- `time_with_offset` (light_manager.py:113-117): parse `base`, add
`offset` seconds via full date-time arithmetic, keep only the time of day
(so the result wraps modulo 86400 seconds; the date overflow is discarded). -/
def time_with_offset (base : String) (offset : Int) : Option Time :=
  (parse_time base).map fun t =>
    let total : Int := (t.toSeconds : Int) + offset
    let s : Nat := (((total % 86400) + 86400) % 86400).toNat
    ⟨s / 3600, (s % 3600) / 60, s % 60⟩

/-- Zero-padding to two digits, as `strftime` does for `%H`/`%M`
(hour and minute of a `datetime.time` are always below 60, so two digits
suffice). -/
def pad2 (n : Nat) : String :=
  String.mk [Nat.digitChar (n / 10 % 10), Nat.digitChar (n % 10)]

/-- `format_time` (light_manager.py:120-122): `strftime("%H:%M")` —
zero-padded hour and minute, seconds dropped. -/
def format_time (t : Time) : String :=
  pad2 t.hour ++ ":" ++ pad2 t.minute

/-- The retry loop body of `get_lux` (light_manager.py:72-81) over the
remaining read outcomes: a read either raises or yields `None` (both
modelled `none`) or yields a number; a non-negative number is returned
immediately, anything else falls through to the next attempt; when the
attempts are exhausted the fallback 9999 is returned. -/
def get_lux_go : List (Option ℤ) → ℤ
  | [] => 9999
  | r :: rest =>
    match r with
    | some x => if 0 ≤ x then x else get_lux_go rest
    | none => get_lux_go rest

/-- `get_lux` (light_manager.py:71-81): `for _ in range(3)` — at most the
first 3 outcomes of the read stream are consumed. -/
def get_lux (reads : List (Option ℤ)) : ℤ :=
  get_lux_go (reads.take 3)

/-- The three fixtures of the `SPOTS` dict (light_manager.py:25-29),
in its iteration order: main, aux, gallery. -/
inductive Fixture
  | main
  | aux
  | gallery
deriving DecidableEq, Repr

/-- The persisted desired-state mapping (`state`, light_manager.py:125):
for each fixture either no entry yet (`none`) or the last desired state. -/
structure LightState where
  main : Option Bool
  aux : Option Bool
  gallery : Option Bool
deriving DecidableEq, Repr

/-- `state.get(name)` — `none` when no entry exists. -/
def LightState.get (st : LightState) : Fixture → Option Bool
  | .main => st.main
  | .aux => st.aux
  | .gallery => st.gallery

/-- `state[name] = want`. -/
def LightState.set (st : LightState) : Fixture → Bool → LightState
  | .main, b => { st with main := some b }
  | .aux, b => { st with aux := some b }
  | .gallery, b => { st with gallery := some b }

/-- The observable LED states (`led.is_lit` per fixture). -/
structure ActualState where
  main : Bool
  aux : Bool
  gallery : Bool
deriving DecidableEq, Repr

/-- `led.is_lit` for a fixture. -/
def ActualState.get (a : ActualState) : Fixture → Bool
  | .main => a.main
  | .aux => a.aux
  | .gallery => a.gallery

/-- Record the new LED state of a fixture. -/
def ActualState.set (a : ActualState) : Fixture → Bool → ActualState
  | .main, b => { a with main := b }
  | .aux, b => { a with aux := b }
  | .gallery, b => { a with gallery := b }

/-- The configuration document read each cycle (`read_config`), restricted
to the keys the loop consults; `none` models an absent key.  `threshold`
and `hysteresis` default to 120 and 15 via `cfg.get`
(light_manager.py:137-138). -/
structure Config where
  threshold : Option ℤ
  hysteresis : Option ℤ
  main_off : Option String
  aux_on : Option String
  aux_off : Option String
  gallery_on : Option String
  gallery_off : Option String
deriving DecidableEq, Repr

/-- `cfg[f"{name}_on"]` for the schedule-only fixtures. -/
def Config.onKey (cfg : Config) : Fixture → Option String
  | .aux => cfg.aux_on
  | .gallery => cfg.gallery_on
  | .main => none

/-- `cfg[f"{name}_off"]` for the schedule-only fixtures. -/
def Config.offKey (cfg : Config) : Fixture → Option String
  | .aux => cfg.aux_off
  | .gallery => cfg.gallery_off
  | .main => none

/-- `should_be_on` (light_manager.py:157-190).  `lux`, `threshold`,
`hysteresis`, `rnd_on`, `rnd_off` and `now` are the loop variables the
closure captures.  `none` models an exception escaping the call
(a malformed time string in the config). -/
def should_be_on (name : Fixture) (cfg : Config) (state : LightState)
    (lux threshold hysteresis : ℤ) (rnd_on rnd_off : Int) (now : Time) :
    Option Bool :=
  let prev_state := (state.get name).getD false
  match name with
  | .gallery | .aux =>
    match cfg.onKey name, cfg.offKey name with
    | some on_s, some off_s =>
      match time_with_offset on_s rnd_on, time_with_offset off_s rnd_off with
      | some on_t, some off_t =>
        is_between now (format_time on_t) (format_time off_t)
      | _, _ => none
    | _, _ => some false
  | .main =>
    let hyster : Option Bool :=
      if prev_state then some (decide (lux < threshold + hysteresis))
      else some (decide (lux < threshold - hysteresis))
    match cfg.main_off with
    | some moff =>
      match parse_time moff with
      | none => none
      | some off_time =>
        if off_time.toSeconds ≤ now.toSeconds then some false else hyster
    | none => hyster

/-- A hardware actuation together with its log line
(`led.on()` / `led.off()`, light_manager.py:204-211). -/
inductive Command
  | turnOn
  | turnOff
deriving DecidableEq, Repr

/-- The LED synchronisation step (light_manager.py:203-211): issue a
command only when the desired state differs from `led.is_lit`; returns the
commands issued and the resulting LED state. -/
def reconcile (want actual : Bool) : List Command × Bool :=
  if want then
    if actual then ([], actual) else ([Command.turnOn], true)
  else
    if actual then ([Command.turnOff], false) else ([], actual)

/-- An edge-detection log line (light_manager.py:197-201). -/
inductive LogEvent
  | init (fx : Fixture) (want : Bool)
  | transition (fx : Fixture) (prev want : Bool)
deriving DecidableEq, Repr

/-- The edge-detection logging (light_manager.py:195-201): `prev is None`
logs an initialization, a changed desired state logs a transition. -/
def edgeLog (fx : Fixture) (prev : Option Bool) (want : Bool) : List LogEvent :=
  match prev with
  | none => [LogEvent.init fx want]
  | some p => if p = want then [] else [LogEvent.transition fx p want]

/-- The outcome of one iteration of the main loop: the state mapping as
passed to `save_state`, the LED states, the hardware commands issued
(in order, tagged with their fixture), and the edge-detection log lines. -/
structure CycleResult where
  state : LightState
  actual : ActualState
  commands : List (Fixture × Command)
  logs : List LogEvent
deriving DecidableEq, Repr

/-- One iteration of the body of the main loop (light_manager.py:156-216)
after the lux reading: compute `should_be_on` for each fixture of `SPOTS`
in order (main, aux, gallery), log edges, synchronise the LED, update the
state entry, and finally hand the whole state mapping to `save_state`.
`none` models an uncaught exception (only `KeyboardInterrupt` is caught,
so the loop dies). -/
def run_cycle (cfg : Config) (st : LightState) (act : ActualState)
    (lux : ℤ) (rnd_on rnd_off : Int) (now : Time) : Option CycleResult :=
  match should_be_on .main cfg st lux (cfg.threshold.getD 120)
      (cfg.hysteresis.getD 15) rnd_on rnd_off now with
  | none => none
  | some w1 =>
    let l1 := edgeLog .main (st.get .main) w1
    let r1 := reconcile w1 (act.get .main)
    let st1 := st.set .main w1
    let act1 := act.set .main r1.2
    match should_be_on .aux cfg st1 lux (cfg.threshold.getD 120)
        (cfg.hysteresis.getD 15) rnd_on rnd_off now with
    | none => none
    | some w2 =>
      let l2 := edgeLog .aux (st1.get .aux) w2
      let r2 := reconcile w2 (act1.get .aux)
      let st2 := st1.set .aux w2
      let act2 := act1.set .aux r2.2
      match should_be_on .gallery cfg st2 lux (cfg.threshold.getD 120)
          (cfg.hysteresis.getD 15) rnd_on rnd_off now with
      | none => none
      | some w3 =>
        let l3 := edgeLog .gallery (st2.get .gallery) w3
        let r3 := reconcile w3 (act2.get .gallery)
        let st3 := st2.set .gallery w3
        let act3 := act2.set .gallery r3.2
        some ⟨st3, act3,
          r1.1.map (fun c => (Fixture.main, c))
            ++ r2.1.map (fun c => (Fixture.aux, c))
            ++ r3.1.map (fun c => (Fixture.gallery, c)),
          l1 ++ l2 ++ l3⟩

/-! ## Helper lemmas -/

theorem LightState.get_set_same (st : LightState) (fx : Fixture) (b : Bool) :
    (st.set fx b).get fx = some b := by
  cases fx <;> rfl

theorem LightState.get_set_ne (st : LightState) {fx fy : Fixture} (b : Bool)
    (h : fx ≠ fy) : (st.set fy b).get fx = st.get fx := by
  cases fx <;> cases fy <;> first
    | exact (h rfl).elim
    | rfl

theorem ActualState.get_set_other (a : ActualState) {fx fy : Fixture} (b : Bool)
    (h : fx ≠ fy) : (a.set fy b).get fx = a.get fx := by
  cases fx <;> cases fy <;> first
    | exact (h rfl).elim
    | rfl

/-- `should_be_on` reads the state mapping only through
`state.get(name, False)`. -/
theorem should_be_on_congr {fx : Fixture} {st st2 : LightState} (cfg : Config)
    (lux thr hyst : ℤ) (ron roff : Int) (now : Time)
    (h : (st.get fx).getD false = (st2.get fx).getD false) :
    should_be_on fx cfg st lux thr hyst ron roff now
      = should_be_on fx cfg st2 lux thr hyst ron roff now := by
  cases fx <;> simp only [should_be_on, h]

/-- Unfolding of a successful control cycle: the desired states the cycle
computed (each depending only on the state mapping as loaded, since a
fixture's decision reads only its own entry), the final state mapping,
LED states, commands and log lines. -/
theorem run_cycle_spec {cfg : Config} {st : LightState} {act : ActualState}
    {lux : ℤ} {ron roff : Int} {now : Time} {r : CycleResult}
    (h : run_cycle cfg st act lux ron roff now = some r) :
    ∃ w1 w2 w3,
      should_be_on .main cfg st lux (cfg.threshold.getD 120)
          (cfg.hysteresis.getD 15) ron roff now = some w1 ∧
      should_be_on .aux cfg st lux (cfg.threshold.getD 120)
          (cfg.hysteresis.getD 15) ron roff now = some w2 ∧
      should_be_on .gallery cfg st lux (cfg.threshold.getD 120)
          (cfg.hysteresis.getD 15) ron roff now = some w3 ∧
      r.state = ((st.set .main w1).set .aux w2).set .gallery w3 ∧
      r.actual = ((act.set .main (reconcile w1 (act.get .main)).2).set .aux
          (reconcile w2 (act.get .aux)).2).set .gallery
          (reconcile w3 (act.get .gallery)).2 ∧
      r.commands = (reconcile w1 (act.get .main)).1.map (fun c => (Fixture.main, c))
        ++ (reconcile w2 (act.get .aux)).1.map (fun c => (Fixture.aux, c))
        ++ (reconcile w3 (act.get .gallery)).1.map (fun c => (Fixture.gallery, c)) ∧
      r.logs = edgeLog .main (st.get .main) w1 ++ edgeLog .aux (st.get .aux) w2
        ++ edgeLog .gallery (st.get .gallery) w3 := by
  have ham : Fixture.aux ≠ Fixture.main := by decide
  have hgm : Fixture.gallery ≠ Fixture.main := by decide
  have hga : Fixture.gallery ≠ Fixture.aux := by decide
  simp only [run_cycle] at h
  split at h
  · simp at h
  next w1 h1 =>
    split at h
    · simp at h
    next w2 h2 =>
      split at h
      · simp at h
      next w3 h3 =>
        have hr := Option.some.inj h
        subst hr
        rw [should_be_on_congr cfg lux (cfg.threshold.getD 120)
            (cfg.hysteresis.getD 15) ron roff now
            (by rw [LightState.get_set_ne _ _ ham])] at h2
        rw [should_be_on_congr cfg lux (cfg.threshold.getD 120)
            (cfg.hysteresis.getD 15) ron roff now
            (by rw [LightState.get_set_ne _ _ hga, LightState.get_set_ne _ _ hgm])] at h3
        refine ⟨w1, w2, w3, h1, h2, h3, rfl, ?_, ?_, ?_⟩
        · simp only [ActualState.get_set_other _ _ ham, ActualState.get_set_other _ _ hga,
            ActualState.get_set_other _ _ hgm]
        · simp only [ActualState.get_set_other _ _ ham, ActualState.get_set_other _ _ hga,
            ActualState.get_set_other _ _ hgm]
        · simp only [LightState.get_set_ne _ _ ham, LightState.get_set_ne _ _ hga,
            LightState.get_set_ne _ _ hgm]

/-- A fixture's schedule branch when both keys are present and all times
are well formed: the desired state is the window test on the
offset-shifted, re-formatted times (light_manager.py:161-171). -/
theorem should_be_on_schedule {fx : Fixture} (hfx : fx = .aux ∨ fx = .gallery)
    (cfg : Config) (st : LightState) (lux thr hyst : ℤ) (ron roff : Int)
    (now : Time) {on_s off_s : String}
    (hon : cfg.onKey fx = some on_s) (hoff : cfg.offKey fx = some off_s)
    {on_t off_t : Time} (hot : time_with_offset on_s ron = some on_t)
    (hoft : time_with_offset off_s roff = some off_t) :
    should_be_on fx cfg st lux thr hyst ron roff now
      = is_between now (format_time on_t) (format_time off_t) := by
  rcases hfx with h | h <;> subst h <;>
    simp only [should_be_on, hon, hoff, hot, hoft]

/-- A schedule-only fixture with a missing schedule key is disabled
(light_manager.py:172). -/
theorem should_be_on_schedule_missing {fx : Fixture}
    (hfx : fx = .aux ∨ fx = .gallery) (cfg : Config) (st : LightState)
    (lux thr hyst : ℤ) (ron roff : Int) (now : Time)
    (hmiss : cfg.onKey fx = none ∨ cfg.offKey fx = none) :
    should_be_on fx cfg st lux thr hyst ron roff now = some false := by
  rcases hfx with h | h <;> subst h <;>
    [skip; skip] <;> rcases hmiss with hm | hm
  · cases hoff : cfg.offKey .aux <;> simp only [should_be_on, hm, hoff]
  · cases hon : cfg.onKey .aux <;> simp only [should_be_on, hon, hm]
  · cases hoff : cfg.offKey .gallery <;> simp only [should_be_on, hm, hoff]
  · cases hon : cfg.onKey .gallery <;> simp only [should_be_on, hon, hm]

/-- A `LogEvent.transition` found in an `edgeLog` carries the fixture that
log was produced for. -/
theorem transition_mem_edgeLog {fx : Fixture} {p w : Bool} {fy : Fixture}
    {pv : Option Bool} {wv : Bool}
    (h : LogEvent.transition fx p w ∈ edgeLog fy pv wv) : fx = fy := by
  cases pv with
  | none => simp [edgeLog] at h
  | some v =>
    simp only [edgeLog] at h
    split at h
    · simp at h
    · simp at h
      exact h.1

/-! ## Concrete scenarios used by the claims -/

/-- An empty configuration document: every key absent, defaults apply. -/
def cfg0 : Config := ⟨none, none, none, none, none, none, none⟩

/-- A configuration with only the manual cutoff `main_off = "20:00"`. -/
def cfg20 : Config := ⟨none, none, some "20:00", none, none, none, none⟩

/-- A configuration scheduling the gallery from 18:00 to 23:00. -/
def cfgG : Config := ⟨none, none, none, none, none, some "18:00", some "23:00"⟩

/-- A configuration whose `gallery_on` value is not a `HH:MM` time. -/
def cfgBad : Config := ⟨none, none, none, none, none, some "oops", some "23:00"⟩

/-- A configuration whose `main_off` value is out of range (`"24:00"`). -/
def cfgBadMain : Config := ⟨none, none, some "24:00", none, none, none, none⟩

/-- The state mapping before any entry is recorded. -/
def stEmpty : LightState := ⟨none, none, none⟩

/-- A state mapping whose only entry says main was last desired ON. -/
def stOn : LightState := ⟨some true, none, none⟩

/-- A state mapping whose only entry says main was last desired OFF. -/
def stOff : LightState := ⟨some false, none, none⟩

/-- All LEDs observed off. -/
def actOff : ActualState := ⟨false, false, false⟩

/-- Noon, used where the time of day is irrelevant. -/
def now0 : Time := ⟨12, 0, 0⟩

/-- The outcome of one cycle under `cfgG` at 19:00, lux 50, empty state,
all LEDs off. -/
def rG : CycleResult :=
  ⟨⟨some true, some false, some true⟩, ⟨true, false, true⟩,
    [(.main, .turnOn), (.gallery, .turnOn)],
    [.init .main true, .init .aux false, .init .gallery true]⟩

/-! ## The claims -/

/-- C1: for fixture "main", when no `main_off` override applies, hysteresis
is applied against the previous desired state: previously ON stays ON iff
`lux < threshold + hysteresis`; previously OFF turns ON iff
`lux < threshold - hysteresis`.  With threshold 120 and hysteresis 15:
previous ON keeps lux 130 ON and turns lux 136 OFF; previous OFF keeps
lux 110 OFF and turns lux 104 ON. -/
theorem C1_main_hysteresis (cfg : Config) (st : LightState)
    (lux thr hyst : ℤ) (ron roff : Int) (now : Time) (prev : Bool)
    (hprev : st.get .main = some prev)
    (hov : ∀ moff, cfg.main_off = some moff →
      ∃ t, parse_time moff = some t ∧ now.toSeconds < t.toSeconds) :
    (should_be_on .main cfg st lux thr hyst ron roff now
      = some (if prev then decide (lux < thr + hyst)
          else decide (lux < thr - hyst)))
    ∧ (prev = true →
        (should_be_on .main cfg st lux thr hyst ron roff now = some true
          ↔ lux < thr + hyst))
    ∧ (prev = false →
        (should_be_on .main cfg st lux thr hyst ron roff now = some true
          ↔ lux < thr - hyst))
    ∧ should_be_on .main cfg0 stOn 130 120 15 0 0 now0 = some true
    ∧ should_be_on .main cfg0 stOn 136 120 15 0 0 now0 = some false
    ∧ should_be_on .main cfg0 stOff 110 120 15 0 0 now0 = some false
    ∧ should_be_on .main cfg0 stOff 104 120 15 0 0 now0 = some true := by
  have key : should_be_on .main cfg st lux thr hyst ron roff now
      = some (if prev then decide (lux < thr + hyst)
          else decide (lux < thr - hyst)) := by
    simp only [should_be_on, hprev, Option.getD_some]
    cases hm : cfg.main_off with
    | none => cases prev <;> rfl
    | some moff =>
      obtain ⟨t, hp, hlt⟩ := hov moff hm
      simp only [hp]
      rw [if_neg (by omega)]
      cases prev <;> rfl
  refine ⟨key, ?_, ?_, by decide, by decide, by decide, by decide⟩
  · intro hp; subst hp; rw [key]; simp
  · intro hp; subst hp; rw [key]; simp

/-- C1 witness: previous ON, threshold 120, hysteresis 15, lux 130. -/
theorem C1_main_hysteresis_witness :
    should_be_on .main cfg0 stOn 130 120 15 0 0 now0
      = some (if true then decide ((130:ℤ) < 120 + 15)
          else decide ((130:ℤ) < 120 - 15)) :=
  (C1_main_hysteresis cfg0 stOn 130 120 15 0 0 now0 true rfl
    (fun _ h => nomatch h)).1

/-- C2: the window test works on minutes since midnight with half-open
semantics — `start ≤ end` means `start ≤ now < end`, `start > end`
(midnight-crossing) means `now ≥ start ∨ now < end`; in particular for
22:00–06:00 it holds at 23:00, 00:00, 05:59 and fails at 06:00, 21:59,
and for 08:00–18:00 it holds at 08:00, 12:00, 17:59 and fails at
07:59, 18:00. -/
theorem C2_window_semantics (now : Time) (s e : String) (ts te : Time)
    (hs : parse_time s = some ts) (he : parse_time e = some te) :
    (is_between now s e = some (
      if time_to_minutes ts ≤ time_to_minutes te then
        decide (time_to_minutes ts ≤ time_to_minutes now
          ∧ time_to_minutes now < time_to_minutes te)
      else
        decide (time_to_minutes now ≥ time_to_minutes ts
          ∨ time_to_minutes now < time_to_minutes te)))
    ∧ is_between ⟨23, 0, 0⟩ "22:00" "06:00" = some true
    ∧ is_between ⟨0, 0, 0⟩ "22:00" "06:00" = some true
    ∧ is_between ⟨5, 59, 0⟩ "22:00" "06:00" = some true
    ∧ is_between ⟨6, 0, 0⟩ "22:00" "06:00" = some false
    ∧ is_between ⟨21, 59, 0⟩ "22:00" "06:00" = some false
    ∧ is_between ⟨8, 0, 0⟩ "08:00" "18:00" = some true
    ∧ is_between ⟨12, 0, 0⟩ "08:00" "18:00" = some true
    ∧ is_between ⟨17, 59, 0⟩ "08:00" "18:00" = some true
    ∧ is_between ⟨7, 59, 0⟩ "08:00" "18:00" = some false
    ∧ is_between ⟨18, 0, 0⟩ "08:00" "18:00" = some false := by
  refine ⟨?_, by decide, by decide, by decide, by decide, by decide,
    by decide, by decide, by decide, by decide, by decide⟩
  simp only [is_between, hs, he]
  split <;> rfl

/-- C2 witness: the midnight-crossing window 22:00–06:00 at 23:00. -/
theorem C2_window_semantics_witness :
    is_between ⟨23, 0, 0⟩ "22:00" "06:00" = some (
      if time_to_minutes ⟨22, 0, 0⟩ ≤ time_to_minutes ⟨6, 0, 0⟩ then
        decide (time_to_minutes ⟨22, 0, 0⟩ ≤ time_to_minutes ⟨23, 0, 0⟩
          ∧ time_to_minutes ⟨23, 0, 0⟩ < time_to_minutes ⟨6, 0, 0⟩)
      else
        decide (time_to_minutes ⟨23, 0, 0⟩ ≥ time_to_minutes ⟨22, 0, 0⟩
          ∨ time_to_minutes ⟨23, 0, 0⟩ < time_to_minutes ⟨6, 0, 0⟩)) :=
  (C2_window_semantics ⟨23, 0, 0⟩ "22:00" "06:00" ⟨22, 0, 0⟩ ⟨6, 0, 0⟩
    (by decide) (by decide)).1

/-- C5: when `main_off` is configured and the current time of day has
reached it, the desired state of "main" is false, whatever the lux value
and the previous state. -/
theorem C5_main_off_override (cfg : Config) (st : LightState)
    (lux thr hyst : ℤ) (ron roff : Int) (now : Time) (moff : String)
    (t : Time) (hm : cfg.main_off = some moff) (hp : parse_time moff = some t)
    (ht : t.toSeconds ≤ now.toSeconds) :
    should_be_on .main cfg st lux thr hyst ron roff now = some false := by
  simp only [should_be_on, hm, hp]
  rw [if_pos ht]

/-- C5 witness: `main_off = "20:00"`, now 20:05, lux 5 (dark). -/
theorem C5_main_off_override_witness :
    should_be_on .main cfg20 stEmpty 5 120 15 0 0 ⟨20, 5, 0⟩ = some false :=
  C5_main_off_override cfg20 stEmpty 5 120 15 0 0 ⟨20, 5, 0⟩ "20:00"
    ⟨20, 0, 0⟩ rfl (by decide) (by decide)

/-- C7: the reconciliation step issues an ON command exactly when desired
is true and the LED is off, an OFF command exactly when desired is false
and the LED is lit, nothing when they already agree; running it again on
its own outcome issues nothing (idempotence). -/
theorem C7_reconcile_idempotent (want actual : Bool) :
    (want = true → actual = false →
      reconcile want actual = ([Command.turnOn], true))
    ∧ (want = false → actual = true →
      reconcile want actual = ([Command.turnOff], false))
    ∧ (want = actual → reconcile want actual = ([], actual))
    ∧ (reconcile want (reconcile want actual).2).1 = []
    ∧ (reconcile want actual).2 = want := by
  cases want <;> cases actual <;> simp [reconcile]

/-- C7 witness: desired ON against an unlit LED. -/
theorem C7_reconcile_idempotent_witness :
    reconcile true false = ([Command.turnOn], true) :=
  (C7_reconcile_idempotent true false).1 rfl rfl

/-- C3 counterexample: with no prior entry for "main" (threshold 120,
hysteresis 15, no override), the first hysteresis evaluation at lux 110
returns false — exactly the previously-OFF band, and different from the
previously-ON result — and coincides with the evaluation on a state that
records OFF: `should_be_on` substitutes OFF for the missing entry
(`state.get(name, False)`, light_manager.py:159). -/
theorem C3_counterexample :
    stEmpty.get .main = none
    ∧ should_be_on .main cfg0 stEmpty 110 120 15 0 0 now0 = some false
    ∧ should_be_on .main cfg0 stOn 110 120 15 0 0 now0 = some true
    ∧ should_be_on .main cfg0 stEmpty 110 120 15 0 0 now0
        = should_be_on .main cfg0 stOff 110 120 15 0 0 now0 := by
  decide

/-- C3 (amended): for a fixture with no prior entry, the first cycle logs
an initialization and no transition for it; but the decision itself does
substitute OFF for the missing previous state — `should_be_on` for "main"
on a state without an entry equals `should_be_on` on the same state with
an explicit OFF entry. -/
theorem C3_first_decision (cfg : Config) (st : LightState)
    (act : ActualState) (lux : ℤ) (ron roff : Int) (now : Time)
    (r : CycleResult) (fx : Fixture)
    (h : run_cycle cfg st act lux ron roff now = some r)
    (hnone : st.get fx = none) :
    ((∃ w, LogEvent.init fx w ∈ r.logs)
      ∧ (∀ p w, LogEvent.transition fx p w ∉ r.logs))
    ∧ (∀ lux2 thr hyst ron2 roff2 now2, st.get .main = none →
        should_be_on .main cfg st lux2 thr hyst ron2 roff2 now2
          = should_be_on .main cfg (st.set .main false) lux2 thr hyst
              ron2 roff2 now2) := by
  obtain ⟨w1, w2, w3, h1, h2, h3, -, -, -, hlogs⟩ := run_cycle_spec h
  refine ⟨⟨?_, ?_⟩, ?_⟩
  · cases fx with
    | main => exact ⟨w1, by rw [hlogs, hnone]; simp [edgeLog]⟩
    | aux => exact ⟨w2, by rw [hlogs, hnone]; simp [edgeLog]⟩
    | gallery => exact ⟨w3, by rw [hlogs, hnone]; simp [edgeLog]⟩
  · intro p w hmem
    rw [hlogs] at hmem
    rcases List.mem_append.1 hmem with hm12 | hm3
    · rcases List.mem_append.1 hm12 with hm1 | hm2
      · have hfx := transition_mem_edgeLog hm1
        rw [hfx] at hnone
        rw [hnone] at hm1
        simp [edgeLog] at hm1
      · have hfx := transition_mem_edgeLog hm2
        rw [hfx] at hnone
        rw [hnone] at hm2
        simp [edgeLog] at hm2
    · have hfx := transition_mem_edgeLog hm3
      rw [hfx] at hnone
      rw [hnone] at hm3
      simp [edgeLog] at hm3
  · intro lux2 thr hyst ron2 roff2 now2 hmain
    exact should_be_on_congr cfg lux2 thr hyst ron2 roff2 now2
      (by rw [hmain, LightState.get_set_same]; rfl)

/-- C3 witness: first cycle under `cfgG` at 19:00 with an empty state:
"aux" is initialized, never logged as a transition. -/
theorem C3_first_decision_witness :
    ((∃ w, LogEvent.init .aux w ∈ rG.logs)
      ∧ (∀ p w, LogEvent.transition .aux p w ∉ rG.logs))
    ∧ (∀ lux2 thr hyst ron2 roff2 now2, stEmpty.get .main = none →
        should_be_on .main cfgG stEmpty lux2 thr hyst ron2 roff2 now2
          = should_be_on .main cfgG (stEmpty.set .main false) lux2 thr hyst
              ron2 roff2 now2) :=
  C3_first_decision cfgG stEmpty actOff 50 0 0 ⟨19, 0, 0⟩ rG .aux
    (by decide) rfl

/-- C4: a malformed time string in the configuration is NOT treated as an
absent schedule entry — `parse_time` raises, the exception escapes
`should_be_on` (modelled `none`), and the cycle dies with it (only
`KeyboardInterrupt` is caught, light_manager.py:219), instead of the
fixture evaluating to false and the loop continuing as the spec asks. -/
theorem C4_malformed_time_crashes :
    parse_time "oops" = none
    ∧ parse_time "24:00" = none
    ∧ should_be_on .gallery cfgBad stEmpty 50 120 15 0 0 now0 = none
    ∧ should_be_on .gallery cfgBad stEmpty 50 120 15 0 0 now0 ≠ some false
    ∧ run_cycle cfgBad stEmpty actOff 50 0 0 now0 = none
    ∧ should_be_on .main cfgBadMain stEmpty 50 120 15 0 0 now0 = none := by
  decide

/-- C6: the sensor reader consumes at most 3 read outcomes, returns the
first valid (non-negative) value immediately, skips failed (`none`) and
negative reads, falls back to 9999 when no attempt is valid, and the
decision engine maps lux 9999 to desired OFF for "main" whenever
`threshold ± hysteresis ≤ 9999` (and any configured `main_off` parses). -/
theorem C6_sensor_fallback :
    (∀ (x : ℤ) rest, 0 ≤ x → get_lux (some x :: rest) = x)
    ∧ (∀ rest, get_lux_go (none :: rest) = get_lux_go rest)
    ∧ (∀ (x : ℤ) rest, x < 0 →
        get_lux_go (some x :: rest) = get_lux_go rest)
    ∧ (∀ reads, get_lux reads = get_lux_go (reads.take 3))
    ∧ (∀ r1 r2 r3 rest, get_lux (r1 :: r2 :: r3 :: rest) = get_lux [r1, r2, r3])
    ∧ (∀ reads, (∀ r ∈ reads.take 3, ∀ x : ℤ, r = some x → x < 0) →
        get_lux reads = 9999)
    ∧ (∀ cfg st (thr hyst : ℤ) ron roff now,
        (∀ moff, cfg.main_off = some moff → ∃ t, parse_time moff = some t) →
        thr + hyst ≤ 9999 → thr - hyst ≤ 9999 →
        should_be_on .main cfg st 9999 thr hyst ron roff now = some false) := by
  have go_fallback : ∀ l : List (Option ℤ),
      (∀ r ∈ l, ∀ x : ℤ, r = some x → x < 0) → get_lux_go l = 9999 := by
    intro l
    induction l with
    | nil => intro _; rfl
    | cons r rest ih =>
      intro hall
      cases r with
      | none =>
        exact ih fun r hr => hall r (List.mem_cons_of_mem _ hr)
      | some x =>
        have hx : x < 0 := hall (some x) (List.mem_cons_self _ _) x rfl
        show (if 0 ≤ x then x else get_lux_go rest) = 9999
        rw [if_neg (by omega)]
        exact ih fun r hr => hall r (List.mem_cons_of_mem _ hr)
  refine ⟨?_, fun _ => rfl, ?_, fun _ => rfl, fun _ _ _ _ => rfl, ?_, ?_⟩
  · intro x rest hx
    show (if 0 ≤ x then x else get_lux_go (rest.take 2)) = x
    rw [if_pos hx]
  · intro x rest hx
    show (if 0 ≤ x then x else get_lux_go rest) = get_lux_go rest
    rw [if_neg (by omega)]
  · intro reads hall
    exact go_fallback _ hall
  · intro cfg st thr hyst ron roff now hparse h1 h2
    have hband : ∀ prev : Bool,
        (if prev then some (decide ((9999:ℤ) < thr + hyst))
          else some (decide ((9999:ℤ) < thr - hyst))) = some false := by
      intro prev
      cases prev <;> simp <;> omega
    simp only [should_be_on]
    cases hm : cfg.main_off with
    | none => exact hband _
    | some moff =>
      obtain ⟨t, hp⟩ := hparse moff hm
      simp only [hp]
      split
      · rfl
      · exact hband _

/-- C6 witness: a valid second read is returned; three invalid reads fall
back to 9999 and drive "main" to OFF under the default thresholds. -/
theorem C6_sensor_fallback_witness :
    get_lux (some 7 :: [none]) = 7
    ∧ should_be_on .main cfg0 stEmpty 9999 120 15 0 0 now0 = some false :=
  ⟨C6_sensor_fallback.1 7 [none] (by decide),
    C6_sensor_fallback.2.2.2.2.2.2 cfg0 stEmpty 120 15 0 0 now0
      (fun _ h => nomatch h) (by decide) (by decide)⟩

/-- C8: a schedule-only fixture ("gallery" or "aux") with both keys
present has desired state `is_between now (format (offset on))
(format (offset off))`; with either key missing it is disabled
(desired false). -/
theorem C8_schedule_only (fx : Fixture) (hfx : fx = .aux ∨ fx = .gallery)
    (cfg : Config) (st : LightState) (lux thr hyst : ℤ) (ron roff : Int)
    (now : Time) :
    (∀ on_s off_s, cfg.onKey fx = some on_s → cfg.offKey fx = some off_s →
      ∀ on_t off_t, time_with_offset on_s ron = some on_t →
        time_with_offset off_s roff = some off_t →
        should_be_on fx cfg st lux thr hyst ron roff now
          = is_between now (format_time on_t) (format_time off_t))
    ∧ ((cfg.onKey fx = none ∨ cfg.offKey fx = none) →
        should_be_on fx cfg st lux thr hyst ron roff now = some false) := by
  constructor
  · intro on_s off_s hon hoff on_t off_t hot hoft
    exact should_be_on_schedule hfx cfg st lux thr hyst ron roff now
      hon hoff hot hoft
  · intro hmiss
    exact should_be_on_schedule_missing hfx cfg st lux thr hyst ron roff now
      hmiss

/-- C8 witness: gallery scheduled 18:00–23:00, evaluated at 19:00. -/
theorem C8_schedule_only_witness :
    should_be_on .gallery cfgG stEmpty 50 120 15 0 0 ⟨19, 0, 0⟩
      = is_between ⟨19, 0, 0⟩ (format_time ⟨18, 0, 0⟩)
          (format_time ⟨23, 0, 0⟩) :=
  (C8_schedule_only .gallery (Or.inr rfl) cfgG stEmpty 50 120 15 0 0
    ⟨19, 0, 0⟩).1 "18:00" "23:00" rfl rfl ⟨18, 0, 0⟩ ⟨23, 0, 0⟩
    (by decide) (by decide)

/-- C9: a schedule-only fixture whose window is already active and whose
LED is off gets desired true and an ON command within a single cycle —
no schedule-boundary minute is needed. -/
theorem C9_catch_up (fx : Fixture) (hfx : fx = .aux ∨ fx = .gallery)
    (cfg : Config) (st : LightState) (act : ActualState) (lux : ℤ)
    (ron roff : Int) (now : Time) (r : CycleResult)
    (on_s off_s : String) (on_t off_t : Time)
    (hon : cfg.onKey fx = some on_s) (hoff : cfg.offKey fx = some off_s)
    (hot : time_with_offset on_s ron = some on_t)
    (hoft : time_with_offset off_s roff = some off_t)
    (hwin : is_between now (format_time on_t) (format_time off_t) = some true)
    (hact : act.get fx = false)
    (h : run_cycle cfg st act lux ron roff now = some r) :
    r.state.get fx = some true ∧ (fx, Command.turnOn) ∈ r.commands := by
  obtain ⟨w1, w2, w3, h1, h2, h3, hst, -, hcmds, -⟩ := run_cycle_spec h
  have hdes : should_be_on fx cfg st lux (cfg.threshold.getD 120)
      (cfg.hysteresis.getD 15) ron roff now = some true := by
    rw [should_be_on_schedule hfx cfg st lux (cfg.threshold.getD 120)
      (cfg.hysteresis.getD 15) ron roff now hon hoff hot hoft]
    exact hwin
  have ham : Fixture.aux ≠ Fixture.main := by decide
  have hga : Fixture.gallery ≠ Fixture.aux := by decide
  rcases hfx with hfx | hfx <;> subst hfx
  · have hw : w2 = true := Option.some.inj (h2.symm.trans hdes)
    subst hw
    constructor
    · rw [hst, LightState.get_set_ne _ _ (Ne.symm hga), LightState.get_set_same]
    · rw [hcmds, hact]
      simp [reconcile]
  · have hw : w3 = true := Option.some.inj (h3.symm.trans hdes)
    subst hw
    constructor
    · rw [hst, LightState.get_set_same]
    · rw [hcmds, hact]
      simp [reconcile]

/-- C9 witness: gallery scheduled 18:00–23:00, process starts at 19:00
with the LED off — one cycle records desired true and issues ON. -/
theorem C9_catch_up_witness :
    rG.state.get .gallery = some true
      ∧ (Fixture.gallery, Command.turnOn) ∈ rG.commands :=
  C9_catch_up .gallery (Or.inr rfl) cfgG stEmpty actOff 50 0 0 ⟨19, 0, 0⟩
    rG "18:00" "23:00" ⟨18, 0, 0⟩ ⟨23, 0, 0⟩ rfl rfl (by decide) (by decide)
    (by decide) rfl (by decide)

/-- C10: after a completed cycle, the state mapping has an entry for each
of the three fixtures equal to the desired state computed in that cycle
(so none is missing), and the mapping handed to `save_state` is exactly
the loaded mapping with those three entries updated. -/
theorem C10_full_state_persisted (cfg : Config) (st : LightState)
    (act : ActualState) (lux : ℤ) (ron roff : Int) (now : Time)
    (r : CycleResult) (h : run_cycle cfg st act lux ron roff now = some r) :
    (∀ fx, r.state.get fx
      = should_be_on fx cfg st lux (cfg.threshold.getD 120)
          (cfg.hysteresis.getD 15) ron roff now)
    ∧ (∀ fx, r.state.get fx ≠ none)
    ∧ (∃ w1 w2 w3,
        r.state = ((st.set .main w1).set .aux w2).set .gallery w3) := by
  obtain ⟨w1, w2, w3, h1, h2, h3, hst, -, -, -⟩ := run_cycle_spec h
  have ham : Fixture.aux ≠ Fixture.main := by decide
  have hgm : Fixture.gallery ≠ Fixture.main := by decide
  have hga : Fixture.gallery ≠ Fixture.aux := by decide
  have hmain : r.state.get .main = some w1 := by
    rw [hst, LightState.get_set_ne _ _ (Ne.symm hgm),
      LightState.get_set_ne _ _ (Ne.symm ham), LightState.get_set_same]
  have haux : r.state.get .aux = some w2 := by
    rw [hst, LightState.get_set_ne _ _ (Ne.symm hga),
      LightState.get_set_same]
  have hgal : r.state.get .gallery = some w3 := by
    rw [hst, LightState.get_set_same]
  refine ⟨?_, ?_, w1, w2, w3, hst⟩
  · intro fx
    cases fx with
    | main => rw [hmain, h1]
    | aux => rw [haux, h2]
    | gallery => rw [hgal, h3]
  · intro fx
    cases fx with
    | main => rw [hmain]; exact Option.some_ne_none _
    | aux => rw [haux]; exact Option.some_ne_none _
    | gallery => rw [hgal]; exact Option.some_ne_none _

/-- C10 witness: the cycle under `cfgG` at 19:00 persists entries for all
three fixtures. -/
theorem C10_full_state_persisted_witness :
    (∀ fx, rG.state.get fx
      = should_be_on fx cfgG stEmpty 50 (cfgG.threshold.getD 120)
          (cfgG.hysteresis.getD 15) 0 0 ⟨19, 0, 0⟩)
    ∧ (∀ fx, rG.state.get fx ≠ none)
    ∧ (∃ w1 w2 w3,
        rG.state = ((stEmpty.set .main w1).set .aux w2).set .gallery w3) :=
  C10_full_state_persisted cfgG stEmpty actOff 50 0 0 ⟨19, 0, 0⟩ rG
    (by decide)

end LightManager
